import Mathlib

/-!
Verification of the request-parameter classifier and router specified for the
LearnFastAPI repository (src/main.py).

The repository registers routes and handlers on a web framework; the route
declarations and handler bodies are embedded here directly from src/main.py.
The matching, classification and validation machinery itself is supplied by the
framework and is not part of the repository's sources, so those pieces are
modelled from the specification's contracts (sections 4.1-4.3); each such
definition carries a doc comment saying so.
-/

/-- Minimal JSON value model for handler payloads. -/
inductive Json where
  | null
  | str (s : String)
  | num (q : ℚ)
  | jbool (b : Bool)
  | obj (fields : List (String × Json))

/-- HTTP methods used by the routes in src/main.py. -/
inductive Method where
  | GET
  | POST
  | PUT
deriving DecidableEq, Repr

/-- One segment of a route template: a literal segment, a single-segment
placeholder, or a trailing-path placeholder (`{name:path}`) that captures the
rest of the path including slashes. -/
inductive Seg where
  | lit (s : String)
  | cap (name : String)
  | rest (name : String)
deriving DecidableEq, Repr

/-- Identifiers for the handler functions declared in src/main.py, in their
order of appearance. -/
inductive HandlerId where
  | root
  | read_item
  | read_user_me
  | read_user
  | get_model
  | read_files
  | read_user_items
  | create_book
  | read_query_items
  | read_list_items
  | read_metadata_items
  | read_path_items
  | read_numeric_items
  | update_lib_item
  | read_embed_body_item
  | update_field_item
  | create_nested_user
  | create_index_heights
  | create_example_item
  | update_example_field_item
  | create_example_items_multiple
  | create_extra_item
  | read_cookie_items
deriving DecidableEq, Repr

/-- A registered route template: method, parsed path pattern, handler. -/
structure Route where
  method : Method
  segs : List Seg
  handler : HandlerId
deriving DecidableEq, Repr

/-- Splits a list of characters on the slash character, accumulating the
current segment in reverse. -/
def splitSegsAux : List Char → List Char → List String
  | [], acc => [String.mk acc.reverse]
  | '/' :: cs, acc => String.mk acc.reverse :: splitSegsAux cs []
  | c :: cs, acc => splitSegsAux cs (c :: acc)

/-- Splits a request path such as "/users/me" into its segments
["users", "me"]; the empty segment before the leading slash is dropped. -/
def pathSegs (p : String) : List String :=
  (splitSegsAux p.toList []).drop 1

/-- Modelled from the spec (section 4.1 Route Matcher), machinery the
framework supplies and the repository's sources do not contain: structural
match of a template against the path's segments. Literal segments must match
exactly; a placeholder matches any single non-empty segment and binds it by
name; a trailing-path placeholder matches the remainder of the path including
slashes and binds it as one string. -/
def matchSegs : List Seg → List String → Option (List (String × String))
  | [], [] => some []
  | Seg.lit s :: ts, seg :: more =>
      if seg = s then matchSegs ts more else none
  | Seg.cap n :: ts, seg :: more =>
      if seg = "" then none
      else (matchSegs ts more).map (fun b => (n, seg) :: b)
  | [Seg.rest n], more => some [(n, String.intercalate "/" more)]
  | _, _ => none

/-- Modelled from the spec (section 4.1 Route Matcher): scan the registered
templates in registration order and return the first whose method and pattern
both match, together with the captured bindings; no match yields none. -/
def matchRoutes : List Route → Method → List String → Option (HandlerId × List (String × String))
  | [], _, _ => none
  | r :: rs, m, p =>
      if r.method = m then
        match matchSegs r.segs p with
        | some b => some (r.handler, b)
        | none => matchRoutes rs m p
      else matchRoutes rs m p

/-- The route table of src/main.py, in registration (top-to-bottom) order. -/
def routeTable : List Route :=
  [ ⟨Method.GET, [Seg.lit ""], HandlerId.root⟩,
    ⟨Method.GET, [Seg.lit "items", Seg.cap "item_id"], HandlerId.read_item⟩,
    ⟨Method.GET, [Seg.lit "users", Seg.lit "me"], HandlerId.read_user_me⟩,
    ⟨Method.GET, [Seg.lit "users", Seg.cap "user_id"], HandlerId.read_user⟩,
    ⟨Method.GET, [Seg.lit "models", Seg.cap "model_name"], HandlerId.get_model⟩,
    ⟨Method.GET, [Seg.lit "files", Seg.rest "file_path"], HandlerId.read_files⟩,
    ⟨Method.GET, [Seg.lit "users", Seg.cap "user_id", Seg.lit "items", Seg.cap "item_id"],
      HandlerId.read_user_items⟩,
    ⟨Method.POST, [Seg.lit "books", Seg.cap "category"], HandlerId.create_book⟩,
    ⟨Method.GET, [Seg.lit "query-item", Seg.lit ""], HandlerId.read_query_items⟩,
    ⟨Method.GET, [Seg.lit "query-list-items"], HandlerId.read_list_items⟩,
    ⟨Method.GET, [Seg.lit "query-metadata-items"], HandlerId.read_metadata_items⟩,
    ⟨Method.GET, [Seg.lit "items", Seg.cap "item_id"], HandlerId.read_path_items⟩,
    ⟨Method.GET, [Seg.lit "numeric-items", Seg.cap "item_id"], HandlerId.read_numeric_items⟩,
    ⟨Method.PUT, [Seg.lit "lib-items", Seg.cap "item_id"], HandlerId.update_lib_item⟩,
    ⟨Method.GET, [Seg.lit "embed-body-item", Seg.cap "item_id"], HandlerId.read_embed_body_item⟩,
    ⟨Method.PUT, [Seg.lit "field-items", Seg.cap "item_id"], HandlerId.update_field_item⟩,
    ⟨Method.POST, [Seg.lit "nested-user", Seg.cap "user_id"], HandlerId.create_nested_user⟩,
    ⟨Method.POST, [Seg.lit "index-heights"], HandlerId.create_index_heights⟩,
    ⟨Method.POST, [Seg.lit "example-items", Seg.cap "item_id"], HandlerId.create_example_item⟩,
    ⟨Method.PUT, [Seg.lit "example-field-items", Seg.cap "item_id"],
      HandlerId.update_example_field_item⟩,
    ⟨Method.POST, [Seg.lit "example-items-multiple", Seg.cap "item_id"],
      HandlerId.create_example_items_multiple⟩,
    ⟨Method.POST, [Seg.lit "extra-items", Seg.cap "item_id"], HandlerId.create_extra_item⟩,
    ⟨Method.GET, [Seg.lit "cookie-items", Seg.lit ""], HandlerId.read_cookie_items⟩ ]

/-- Embedding of the handler `read_files` (src/main.py lines 66-68): returns
the captured file path echoed back in a one-field object. -/
def read_files (file_path : String) : Json :=
  Json.obj [("file_path", Json.str file_path)]

/-- Embedding of the handler `read_user_items` (src/main.py lines 76-99). The
Python body builds a local dict `item` and updates it, but contains no return
statement, so the function returns None (serialized as JSON null). -/
def read_user_items (user_id : ℤ) (item_id : String) (needy : String)
    (q : Option String) (short : Bool) : Json :=
  let item : List (String × Json) :=
    [("item_id", Json.str item_id),
     ("owner_id", Json.num (user_id : ℚ)),
     ("needy", Json.str needy)]
  let item := match q with
    | some v => if v ≠ "" then item ++ [("q", Json.str v)] else item
    | none => item
  let _item := if !short then
      item ++ [("description",
        Json.str "This is an amazing item that has a long description")]
    else item
  Json.null

/-- Declared parameter types occurring in src/main.py: primitives, enumerated
string types (carrying their closed value set), Pydantic model types (by
name), and optional/collection wrappers. -/
inductive Ty where
  | int
  | str
  | floatTy
  | boolTy
  | enumOf (values : List String)
  | model (mname : String)
  | listOf (t : Ty)
  | optionOf (t : Ty)
deriving DecidableEq, Repr

/-- Explicit origin markers a parameter may carry in src/main.py: Query(),
Path(), Body(embed=...), Cookie(), or none. -/
inductive Ann where
  | none
  | queryAnn
  | pathAnn
  | bodyAnn (embed : Bool)
  | cookieAnn
deriving DecidableEq, Repr

/-- Origin classification of a handler parameter. -/
inductive Origin where
  | path
  | query
  | body
  | cookie
deriving DecidableEq, Repr

/-- A handler parameter declaration: name, declared type, explicit origin
marker if any, and whether it has a default value. -/
structure ParamDecl where
  pname : String
  ty : Ty
  ann : Ann
  hasDefault : Bool
deriving DecidableEq, Repr

/-- A type is structured/composite when it is (an optional wrapper around) a
Pydantic model type. -/
def isStructured : Ty → Bool
  | Ty.model _ => true
  | Ty.optionOf t => isStructured t
  | _ => false

/-- Placeholder names of a route template, in order. -/
def segNames : List Seg → List String
  | [] => []
  | Seg.lit _ :: ts => segNames ts
  | Seg.cap n :: ts => n :: segNames ts
  | Seg.rest n :: ts => n :: segNames ts

/-- Modelled from the spec (section 4.2 Parameter Classifier), machinery the
framework supplies and the repository's sources do not contain: a parameter
whose name is bound by the route matcher is a path parameter; otherwise, in
order of precedence, (1) an explicit origin marker wins, (2) a structured type
with no marker is request body, (3) anything else is a query parameter. -/
def classify (pathNames : List String) (p : ParamDecl) : Origin :=
  if p.pname ∈ pathNames then Origin.path
  else match p.ann with
    | Ann.cookieAnn => Origin.cookie
    | Ann.bodyAnn _ => Origin.body
    | Ann.queryAnn => Origin.query
    | Ann.pathAnn => Origin.path
    | Ann.none => if isStructured p.ty then Origin.body else Origin.query

/-- Classification of every parameter of a handler, given its route template. -/
def classifyParams (segs : List Seg) (ps : List ParamDecl) : List (String × Origin) :=
  ps.map (fun p => (p.pname, classify (segNames segs) p))

/-- Template of PUT /lib-items/{item_id} (src/main.py line 261). -/
def update_lib_item_segs : List Seg := [Seg.lit "lib-items", Seg.cap "item_id"]

/-- Parameter declarations of `update_lib_item` (src/main.py lines 262-272):
item_id: int; item: LibItem; user: LibUser (an enumerated string type);
importance: int annotated Body(gt=0, lt=1000); q: optional str. -/
def update_lib_item_params : List ParamDecl :=
  [ ⟨"item_id", Ty.int, Ann.none, false⟩,
    ⟨"item", Ty.model "LibItem", Ann.none, false⟩,
    ⟨"user", Ty.enumOf ["student", "teacher"], Ann.none, false⟩,
    ⟨"importance", Ty.int, Ann.bodyAnn false, false⟩,
    ⟨"q", Ty.optionOf Ty.str, Ann.none, true⟩ ]

/-- Template of GET /cookie-items/ (src/main.py line 566). -/
def read_cookie_items_segs : List Seg := [Seg.lit "cookie-items", Seg.lit ""]

/-- Parameter declarations of `read_cookie_items` (src/main.py lines 567-569). -/
def read_cookie_items_params : List ParamDecl :=
  [ ⟨"maryland_cookie", Ty.str, Ann.cookieAnn, true⟩ ]

/-- Template of POST /books/{category} (src/main.py line 121). -/
def create_book_segs : List Seg := [Seg.lit "books", Seg.cap "category"]

/-- Parameter declarations of `create_book` (src/main.py lines 122-123):
book: Book (a Pydantic model); quantity: int with default 1; category:
optional Category, bound by the path template. -/
def create_book_params : List ParamDecl :=
  [ ⟨"book", Ty.model "Book", Ann.none, false⟩,
    ⟨"quantity", Ty.int, Ann.none, true⟩,
    ⟨"category", Ty.optionOf (Ty.enumOf ["fiction", "non-fiction"]), Ann.none, true⟩ ]

/-- Result shape of the request body demanded by a handler's body parameters:
no body, the whole body mapped directly onto one parameter, or a single object
keyed by parameter names. -/
inductive BodyShape where
  | noBody
  | direct (pname : String)
  | keyed (pnames : List String)
deriving DecidableEq, Repr

/-- Whether a parameter is explicitly marked embed via Body(embed=True). -/
def isEmbed (p : ParamDecl) : Bool :=
  match p.ann with
  | Ann.bodyAnn e => e
  | _ => false

/-- Modelled from the spec (section 4.2): composition of the request body from
the list of body-classified parameters. A sole body parameter not marked embed
takes the entire body directly; otherwise the body is a single object keyed by
parameter name. -/
def shapeOfBodyList : List ParamDecl → BodyShape
  | [] => BodyShape.noBody
  | [p] => if isEmbed p then BodyShape.keyed [p.pname] else BodyShape.direct p.pname
  | ps => BodyShape.keyed (ps.map ParamDecl.pname)

/-- Body parameters of a handler: those the classifier sends to the body. -/
def bodyParamsOf (segs : List Seg) (ps : List ParamDecl) : List ParamDecl :=
  ps.filter (fun p => classify (segNames segs) p = Origin.body)

/-- Body shape of a handler, from its route template and parameter list. -/
def bodyShape (segs : List Seg) (ps : List ParamDecl) : BodyShape :=
  shapeOfBodyList (bodyParamsOf segs ps)

/-- First value bound to a key in a JSON object's field list. -/
def lookupField : List (String × Json) → String → Option Json
  | [], _ => none
  | (k, v) :: fs, n => if k = n then some v else lookupField fs n

/-- Modelled from the spec (section 4.2): the JSON fragment of the request
body mapped onto the body parameter named `pn` — the whole body for a direct
shape, the value under the parameter's own key for a keyed shape. -/
def bodyFragment (shape : BodyShape) (body : Json) (pn : String) : Option Json :=
  match shape with
  | BodyShape.noBody => none
  | BodyShape.direct n => if pn = n then some body else none
  | BodyShape.keyed ns =>
      if pn ∈ ns then
        match body with
        | Json.obj fs => lookupField fs pn
        | _ => none
      else none

/-- Exact decimal number num / 10^exp, the value space of the numeric
coercion step. Comparisons are exact, via integer cross-multiplication. -/
structure Dec where
  num : ℤ
  exp : ℕ
deriving DecidableEq, Repr

/-- Rational value denoted by an exact decimal. -/
def Dec.toRat (a : Dec) : ℚ := (a.num : ℚ) / (10 : ℚ) ^ a.exp

/-- Boolean less-or-equal on exact decimals, by cross-multiplication. -/
def Dec.ble (a b : Dec) : Bool :=
  decide (a.num * (10 : ℤ) ^ b.exp ≤ b.num * (10 : ℤ) ^ a.exp)

/-- Boolean strict less-than on exact decimals, by cross-multiplication. -/
def Dec.blt (a b : Dec) : Bool :=
  decide (a.num * (10 : ℤ) ^ b.exp < b.num * (10 : ℤ) ^ a.exp)

/-- Constraints a validation failure can report. -/
inductive Constraint where
  | required
  | intParse
  | floatParse
  | geC (bound : Dec)
  | leC (bound : Dec)
  | gtC (bound : Dec)
  | ltC (bound : Dec)
  | enumC (allowed : List String)
deriving DecidableEq, Repr

/-- One entry of an aggregated validation failure: the field path, the
constraint violated, and the offending raw value (none when the failure is a
missing required value). -/
structure FieldError where
  fieldPath : List String
  violated : Constraint
  raw : Option String
deriving DecidableEq, Repr

/-- Numeric bound set a parameter may declare: gt, ge, lt, le. -/
structure NumBounds where
  gtB : Option Dec
  geB : Option Dec
  ltB : Option Dec
  leB : Option Dec
deriving DecidableEq, Repr

/-- Modelled from the spec (section 4.3 Coercion & Validation Engine),
machinery the framework supplies and the repository's sources do not contain:
a value passes its numeric bounds when it is ≥ every ge bound, > every gt
bound, ≤ every le bound and < every lt bound (ge/le inclusive, gt/lt
strict). -/
def passesBounds (nb : NumBounds) (v : Dec) : Bool :=
  (match nb.geB with | some b => b.ble v | none => true)
  && (match nb.gtB with | some b => b.blt v | none => true)
  && (match nb.leB with | some b => v.ble b | none => true)
  && (match nb.ltB with | some b => v.blt b | none => true)

/-- Modelled from the spec (section 4.3): the list of bound violations of a
value against its numeric bound set, one FieldError per violated bound. -/
def boundErrs (fp : List String) (raw : String) (nb : NumBounds) (v : Dec) :
    List FieldError :=
  (match nb.geB with
   | some b => if b.ble v then [] else [⟨fp, Constraint.geC b, some raw⟩]
   | none => [])
  ++ (match nb.gtB with
   | some b => if b.blt v then [] else [⟨fp, Constraint.gtC b, some raw⟩]
   | none => [])
  ++ (match nb.leB with
   | some b => if v.ble b then [] else [⟨fp, Constraint.leC b, some raw⟩]
   | none => [])
  ++ (match nb.ltB with
   | some b => if v.blt b then [] else [⟨fp, Constraint.ltC b, some raw⟩]
   | none => [])

/-- Bounds of item_id in GET /numeric-items/{item_id}: Path(ge=1, le=1000)
(src/main.py lines 228-235). -/
def item_id_bounds : NumBounds := ⟨none, some ⟨1, 0⟩, none, some ⟨1000, 0⟩⟩

/-- Bounds of size in GET /numeric-items/{item_id}: Query(gt=0, lt=10.5)
(src/main.py line 237). -/
def size_bounds : NumBounds := ⟨some ⟨0, 0⟩, none, some ⟨105, 1⟩, none⟩

/-- Bounds of importance in PUT /lib-items/{item_id}: Body(gt=0, lt=1000)
(src/main.py lines 267-270). -/
def importance_bounds : NumBounds := ⟨some ⟨0, 0⟩, none, some ⟨1000, 0⟩, none⟩

/-- Numeric value of a decimal digit character, none otherwise. -/
def digitVal (c : Char) : Option ℕ :=
  if c = '0' then some 0 else if c = '1' then some 1 else if c = '2' then some 2
  else if c = '3' then some 3 else if c = '4' then some 4 else if c = '5' then some 5
  else if c = '6' then some 6 else if c = '7' then some 7 else if c = '8' then some 8
  else if c = '9' then some 9 else none

/-- Folds a digit string into a natural number; none on a non-digit. -/
def natOfDigitsAux : List Char → ℕ → Option ℕ
  | [], acc => some acc
  | c :: cs, acc =>
      match digitVal c with
      | some d => natOfDigitsAux cs (acc * 10 + d)
      | none => none

/-- Modelled from the spec (section 4.3): numeric parse of a raw string into
a natural number; empty and non-digit strings fail. -/
def parseNatStr (s : String) : Option ℕ :=
  match s.toList with
  | [] => none
  | cs => natOfDigitsAux cs 0

/-- Modelled from the spec (section 4.3): numeric parse of a raw string into
an integer, accepting one optional leading minus sign. -/
def parseInt (s : String) : Option ℤ :=
  match s.toList with
  | '-' :: cs =>
      match cs with
      | [] => none
      | _ => (natOfDigitsAux cs 0).map (fun n => -(n : ℤ))
  | _ => (parseNatStr s).map (fun n => (n : ℤ))

/-- Splits a list of characters on a separator character. -/
def splitOnCharAux (sep : Char) : List Char → List Char → List String
  | [], acc => [String.mk acc.reverse]
  | c :: cs, acc =>
      if c = sep then String.mk acc.reverse :: splitOnCharAux sep cs []
      else splitOnCharAux sep cs (c :: acc)

/-- Parses an unsigned decimal literal ("20", "10.5") into an exact decimal. -/
def parseDecNonneg (s : String) : Option Dec :=
  match splitOnCharAux '.' s.toList [] with
  | [a] => (parseNatStr a).map (fun n => ⟨(n : ℤ), 0⟩)
  | [a, b] =>
      match parseNatStr a, parseNatStr b with
      | some na, some nb => some ⟨(na : ℤ) * (10 : ℤ) ^ b.length + (nb : ℤ), b.length⟩
      | _, _ => none
  | _ => none

/-- Modelled from the spec (section 4.3): numeric parse of a raw string into
an exact decimal, accepting one optional leading minus sign. -/
def parseDec (s : String) : Option Dec :=
  match s.toList with
  | '-' :: cs =>
      match parseDecNonneg (String.mk cs) with
      | some d => some ⟨-d.num, d.exp⟩
      | none => none
  | _ => parseDecNonneg s

/-- ASCII lowercase of one character. -/
def lowerChar (c : Char) : Char :=
  if 'A' ≤ c ∧ c ≤ 'Z' then Char.ofNat (c.toNat + 32) else c

/-- ASCII lowercase of a string, character by character. -/
def toLowerStr (s : String) : String := String.mk (s.toList.map lowerChar)

/-- Modelled from the spec (section 4.3): boolean coercion of a raw query
value — any value other than case-insensitive "false", "0" or the empty
string is true; no value is rejected. -/
def parseBool (s : String) : Bool :=
  if toLowerStr s = "false" ∨ s = "0" ∨ s = "" then false else true

/-- First raw value bound to a name in a raw key-value list (query string or
path bindings). -/
def lookupRaw : List (String × String) → String → Option String
  | [], _ => none
  | (k, v) :: kvs, n => if k = n then some v else lookupRaw kvs n

/-- The closed value set of the enumerated type ModelName
(src/main.py lines 45-48). -/
inductive ModelName where
  | alexnet
  | resnet
  | lenet
deriving DecidableEq, Repr

/-- Underlying string value of a ModelName member; the class inherits from
str, so equality and serialization use this value. -/
def ModelName.value : ModelName → String
  | ModelName.alexnet => "alexnet"
  | ModelName.resnet => "resnet"
  | ModelName.lenet => "lenet"

/-- Allowed values of ModelName, in declaration order. -/
def modelNameValues : List String := ["alexnet", "resnet", "lenet"]

/-- Modelled from the spec (section 4.3): coercion of a captured raw path
value into the enumerated type ModelName; a value outside the closed set is
rejected with a validation failure naming the allowed values. -/
def parseModelName (fp : List String) (s : String) : Except FieldError ModelName :=
  if s = "alexnet" then Except.ok ModelName.alexnet
  else if s = "resnet" then Except.ok ModelName.resnet
  else if s = "lenet" then Except.ok ModelName.lenet
  else Except.error ⟨fp, Constraint.enumC modelNameValues, some s⟩

/-- Errors of an aggregated validation step; empty for a success. -/
def errsOf {α : Type} : Except (List FieldError) α → List FieldError
  | Except.error es => es
  | Except.ok _ => []

/-- Whether a fallible step succeeded. -/
def isOkB {ε α : Type} : Except ε α → Bool
  | Except.ok _ => true
  | Except.error _ => false

/-- Modelled from the spec (section 4.3): the item_id path capture of
GET /numeric-items/{item_id} — int coercion, then bounds ge=1, le=1000. -/
def checkNumericItemId (raw : String) : Except (List FieldError) ℤ :=
  match parseInt raw with
  | none => Except.error [⟨["path", "item_id"], Constraint.intParse, some raw⟩]
  | some n =>
      match boundErrs ["path", "item_id"] raw item_id_bounds ⟨n, 0⟩ with
      | [] => Except.ok n
      | es => Except.error es

/-- Modelled from the spec (section 4.3): the required query parameter q of
GET /numeric-items/{item_id} — missing is a validation failure. -/
def checkNumericQ (qs : List (String × String)) : Except (List FieldError) String :=
  match lookupRaw qs "q" with
  | none => Except.error [⟨["query", "q"], Constraint.required, none⟩]
  | some v => Except.ok v

/-- Modelled from the spec (section 4.3): the required query parameter size of
GET /numeric-items/{item_id} — float coercion, then bounds gt=0, lt=10.5. -/
def checkNumericSize (qs : List (String × String)) : Except (List FieldError) Dec :=
  match lookupRaw qs "size" with
  | none => Except.error [⟨["query", "size"], Constraint.required, none⟩]
  | some raw =>
      match parseDec raw with
      | none => Except.error [⟨["query", "size"], Constraint.floatParse, some raw⟩]
      | some v =>
          match boundErrs ["query", "size"] raw size_bounds v with
          | [] => Except.ok v
          | es => Except.error es

/-- Successful binding of GET /numeric-items/{item_id}. -/
structure NumericItemsBound where
  item_id : ℤ
  q : String
  size : Dec
deriving DecidableEq, Repr

/-- Modelled from the spec (section 4.3): binding for
GET /numeric-items/{item_id}. Validation is aggregated, not fail-fast: when
any parameter fails, the result carries the errors of every failing
parameter. -/
def bindNumericItems (rawItemId : String) (qs : List (String × String)) :
    Except (List FieldError) NumericItemsBound :=
  match checkNumericItemId rawItemId, checkNumericQ qs, checkNumericSize qs with
  | Except.ok a, Except.ok b, Except.ok c => Except.ok ⟨a, b, c⟩
  | ea, eb, ec => Except.error (errsOf ea ++ errsOf eb ++ errsOf ec)

/-- Embedding of the handler `read_numeric_items` (src/main.py lines 227-240):
echoes item_id, q and size. -/
def read_numeric_items (item_id : ℤ) (q : String) (size : Dec) : Json :=
  Json.obj [("item_id", Json.num (item_id : ℚ)), ("q", Json.str q),
    ("size", Json.num size.toRat)]

/-- Terminal outcome of a request: rejected with aggregated errors (handler
never invoked) or bound with the handler's payload. -/
inductive Outcome where
  | rejected (errors : List FieldError)
  | bound (payload : Json)

/-- Modelled from the spec (section 4.3, state machine): a request to
GET /numeric-items/{item_id} ends Rejected on a validation failure — the
handler is never invoked — and otherwise ends Bound with the handler's
payload. -/
def runNumericItems (rawItemId : String) (qs : List (String × String)) : Outcome :=
  match bindNumericItems rawItemId qs with
  | Except.error es => Outcome.rejected es
  | Except.ok b => Outcome.bound (read_numeric_items b.item_id b.q b.size)

/-- Modelled from the spec (section 4.3): the user_id path capture of
GET /users/{user_id}/items/{item_id} — int coercion. -/
def checkUserId (pb : List (String × String)) : Except (List FieldError) ℤ :=
  match lookupRaw pb "user_id" with
  | none => Except.error [⟨["path", "user_id"], Constraint.required, none⟩]
  | some raw =>
      match parseInt raw with
      | none => Except.error [⟨["path", "user_id"], Constraint.intParse, some raw⟩]
      | some n => Except.ok n

/-- Modelled from the spec (section 4.3): the item_id path capture of
GET /users/{user_id}/items/{item_id} — a plain string. -/
def checkItemIdStr (pb : List (String × String)) : Except (List FieldError) String :=
  match lookupRaw pb "item_id" with
  | none => Except.error [⟨["path", "item_id"], Constraint.required, none⟩]
  | some v => Except.ok v

/-- Modelled from the spec (section 4.3): the required query parameter needy
of GET /users/{user_id}/items/{item_id} — no default, so a request in which it
is absent fails validation, and a present raw value is bound unmodified. -/
def checkNeedy (qs : List (String × String)) : Except (List FieldError) String :=
  match lookupRaw qs "needy" with
  | none => Except.error [⟨["query", "needy"], Constraint.required, none⟩]
  | some v => Except.ok v

/-- Modelled from the spec (section 4.3): the value bound to the boolean query
parameter short of GET /users/{user_id}/items/{item_id} — default false when
absent, boolean coercion of the raw value when present. -/
def shortVal (qs : List (String × String)) : Bool :=
  match lookupRaw qs "short" with
  | none => false
  | some v => parseBool v

/-- Modelled from the spec (section 4.3): the boolean query parameter short
never fails validation; every raw value coerces. -/
def checkShort (qs : List (String × String)) : Except (List FieldError) Bool :=
  Except.ok (shortVal qs)

/-- Successful binding of GET /users/{user_id}/items/{item_id}. -/
structure UserItemsBound where
  user_id : ℤ
  item_id : String
  needy : String
  q : Option String
  short : Bool
deriving DecidableEq, Repr

/-- Modelled from the spec (section 4.3): binding for
GET /users/{user_id}/items/{item_id}, aggregating the errors of every failing
parameter; q is optional (default None) and short defaults to false. -/
def bindUserItems (pb qs : List (String × String)) :
    Except (List FieldError) UserItemsBound :=
  match checkUserId pb, checkItemIdStr pb, checkNeedy qs with
  | Except.ok u, Except.ok i, Except.ok n =>
      Except.ok ⟨u, i, n, lookupRaw qs "q", shortVal qs⟩
  | eu, ei, en => Except.error (errsOf eu ++ errsOf ei ++ errsOf en)

/-- Modelled from the spec (section 4.3, state machine): a request to
GET /users/{user_id}/items/{item_id} ends Rejected on a validation failure —
the handler is never invoked — and otherwise ends Bound with the handler's
payload. -/
def runUserItems (pb qs : List (String × String)) : Outcome :=
  match bindUserItems pb qs with
  | Except.error es => Outcome.rejected es
  | Except.ok b => Outcome.bound (read_user_items b.user_id b.item_id b.needy b.q b.short)

/-- C2: origin classification precedence. A Cookie-marked parameter is a
cookie parameter and a Body-marked primitive is a body parameter whatever the
type (explicit marker wins); an unmarked model-typed parameter is a body
parameter; unmarked enumerated-string, int and str parameters are query
parameters. Concretely, update_lib_item classifies as item_id: path (bound by
the route), item: body, user: query, importance: body, q: query, and
read_cookie_items classifies maryland_cookie as cookie. -/
theorem classifier_precedence :
    (∀ n ty d, classify [] ⟨n, ty, Ann.cookieAnn, d⟩ = Origin.cookie)
    ∧ (∀ n ty e d, classify [] ⟨n, ty, Ann.bodyAnn e, d⟩ = Origin.body)
    ∧ (∀ n m d, classify [] ⟨n, Ty.model m, Ann.none, d⟩ = Origin.body)
    ∧ (∀ n vs d, classify [] ⟨n, Ty.enumOf vs, Ann.none, d⟩ = Origin.query)
    ∧ (∀ n d, classify [] ⟨n, Ty.int, Ann.none, d⟩ = Origin.query)
    ∧ (∀ n d, classify [] ⟨n, Ty.str, Ann.none, d⟩ = Origin.query)
    ∧ classifyParams update_lib_item_segs update_lib_item_params
        = [("item_id", Origin.path), ("item", Origin.body), ("user", Origin.query),
           ("importance", Origin.body), ("q", Origin.query)]
    ∧ classifyParams read_cookie_items_segs read_cookie_items_params
        = [("maryland_cookie", Origin.cookie)] := by
  refine ⟨?_, ?_, ?_, ?_, ?_, ?_, by decide, by decide⟩ <;>
    intros <;> simp [classify, isStructured]

/-- C3: body composition. For create_book (sole unannotated structured body
parameter `book`, not marked embed) the body maps directly: the shape is
direct and the whole body is the fragment for `book`. For update_lib_item
(two body parameters `item` and `importance`) the body is keyed by parameter
name and each fragment is looked up under that name. In general two or more
body parameters always give the keyed shape, and a sole unannotated parameter
always gives the direct shape. -/
theorem body_composition :
    bodyShape create_book_segs create_book_params = BodyShape.direct "book"
    ∧ (∀ body, bodyFragment (bodyShape create_book_segs create_book_params) body "book"
        = some body)
    ∧ bodyShape update_lib_item_segs update_lib_item_params
        = BodyShape.keyed ["item", "importance"]
    ∧ (∀ itemJson impJson,
        bodyFragment (bodyShape update_lib_item_segs update_lib_item_params)
            (Json.obj [("item", itemJson), ("importance", impJson)]) "item"
          = some itemJson
        ∧ bodyFragment (bodyShape update_lib_item_segs update_lib_item_params)
            (Json.obj [("item", itemJson), ("importance", impJson)]) "importance"
          = some impJson)
    ∧ (∀ p q ps, shapeOfBodyList (p :: q :: ps)
        = BodyShape.keyed ((p :: q :: ps).map ParamDecl.pname))
    ∧ (∀ n ty d, shapeOfBodyList [⟨n, ty, Ann.none, d⟩] = BodyShape.direct n) := by
  refine ⟨by decide, ?_, by decide, ?_, ?_, ?_⟩
  · intro body
    show bodyFragment (BodyShape.direct "book") body "book" = some body
    simp [bodyFragment]
  · intro itemJson impJson
    constructor <;>
      simp [bodyFragment, bodyShape, bodyParamsOf, classifyParams, classify,
        isStructured, update_lib_item_segs, update_lib_item_params, segNames,
        shapeOfBodyList, lookupField]
  · intro p q ps
    rfl
  · intro n ty d
    simp [shapeOfBodyList, isEmbed]

/-- C1: route matching is first-match-wins in registration order. If no
template registered before `r` matches the request, `r`'s method matches and
`r`'s pattern structurally matches with bindings `b`, then the router selects
`r`'s handler with exactly those bindings, regardless of any template
registered after `r` — in particular regardless of whether a later template
matches more specifically. -/
theorem first_match_wins (pre : List Route) (r : Route) (post : List Route)
    (m : Method) (p : List String) (b : List (String × String))
    (hpre : ∀ r' ∈ pre, r'.method = m → matchSegs r'.segs p = none)
    (hm : r.method = m) (hb : matchSegs r.segs p = some b) :
    matchRoutes (pre ++ r :: post) m p = some (r.handler, b) := by
  induction pre with
  | nil => simp [matchRoutes, hm, hb]
  | cons r' pre ih =>
      have h' := hpre r' (List.mem_cons_self r' pre)
      simp only [List.cons_append, matchRoutes]
      by_cases hmeq : r'.method = m
      · rw [if_pos hmeq, h' hmeq]
        exact ih fun x hx hmx => hpre x (List.mem_cons_of_mem r' hx) hmx
      · rw [if_neg hmeq]
        exact ih fun x hx hmx => hpre x (List.mem_cons_of_mem r' hx) hmx

/-- Witness for C1: the claim's scenario. With the placeholder template
`/users/{id}` registered first and the literal template `/users/me` registered
after it for the same method, a GET to `/users/me` selects the placeholder
handler `read_user` with the binding id="me", never the literal handler. -/
theorem first_match_wins_witness :
    matchRoutes
      [⟨Method.GET, [Seg.lit "users", Seg.cap "id"], HandlerId.read_user⟩,
       ⟨Method.GET, [Seg.lit "users", Seg.lit "me"], HandlerId.read_user_me⟩]
      Method.GET (pathSegs "/users/me")
      = some (HandlerId.read_user, [("id", "me")]) :=
  first_match_wins []
    ⟨Method.GET, [Seg.lit "users", Seg.cap "id"], HandlerId.read_user⟩
    [⟨Method.GET, [Seg.lit "users", Seg.lit "me"], HandlerId.read_user_me⟩]
    Method.GET (pathSegs "/users/me") [("id", "me")]
    (by simp) rfl (by decide)

/-- C9: for the trailing-path template GET /files/{file_path:path} in the
registered route table, a GET to /files/a/b/c binds file_path to the literal
string "a/b/c" (the remainder of the path including slashes, as one string)
and the handler returns the object with field file_path = "a/b/c". -/
theorem files_trailing_path_binding :
    matchRoutes routeTable Method.GET (pathSegs "/files/a/b/c")
      = some (HandlerId.read_files, [("file_path", "a/b/c")])
    ∧ read_files "a/b/c" = Json.obj [("file_path", Json.str "a/b/c")] :=
  ⟨by decide, rfl⟩

/-- C10: for every successfully bound request, the handler read_user_items
returns no value — its body builds and updates a dict but has no return
statement — so the success payload is null regardless of the bound values of
user_id, item_id, needy, q and short. -/
theorem read_user_items_payload_null (user_id : ℤ) (item_id needy : String)
    (q : Option String) (short : Bool) :
    read_user_items user_id item_id needy q short = Json.null := rfl

/-- Witness for C10: the null payload at one concrete bound request. -/
theorem read_user_items_payload_null_witness :
    read_user_items 7 "plumbus" "please" (some "q") false = Json.null :=
  read_user_items_payload_null 7 "plumbus" "please" (some "q") false

/-- Cross-multiplied boolean less-or-equal agrees with the rational order of
the denoted values. -/
theorem Dec.ble_iff (a b : Dec) : a.ble b = true ↔ a.toRat ≤ b.toRat := by
  simp only [Dec.ble, decide_eq_true_eq, Dec.toRat]
  rw [div_le_div_iff₀ (by positivity) (by positivity)]
  norm_cast

/-- Cross-multiplied boolean strict less-than agrees with the rational order
of the denoted values. -/
theorem Dec.blt_iff (a b : Dec) : a.blt b = true ↔ a.toRat < b.toRat := by
  simp only [Dec.blt, decide_eq_true_eq, Dec.toRat]
  rw [div_lt_div_iff₀ (by positivity) (by positivity)]
  norm_cast

/-- Boolean form of Dec.ble_iff. -/
theorem Dec.ble_eq (a b : Dec) : a.ble b = decide (a.toRat ≤ b.toRat) := by
  by_cases h : a.toRat ≤ b.toRat
  · simp [h, (Dec.ble_iff a b).2 h]
  · have hb : ¬ a.ble b = true := fun hb => h ((Dec.ble_iff a b).1 hb)
    simp only [Bool.not_eq_true] at hb
    simp [h, hb]

/-- Boolean form of Dec.blt_iff. -/
theorem Dec.blt_eq (a b : Dec) : a.blt b = decide (a.toRat < b.toRat) := by
  by_cases h : a.toRat < b.toRat
  · simp [h, (Dec.blt_iff a b).2 h]
  · have hb : ¬ a.blt b = true := fun hb => h ((Dec.blt_iff a b).1 hb)
    simp only [Bool.not_eq_true] at hb
    simp [h, hb]

/-- C5: numeric constraints are enforced with ge/le inclusive and gt/lt
strict. For item_id (ge=1, le=1000) the values exactly 1 and exactly 1000
pass; for size (gt=0, lt=10.5) the values exactly 0 and exactly 10.5 fail;
the same strict semantics holds for importance (Body(gt=0, lt=1000)), where
exactly 0 and exactly 1000 fail. In general the three bound sets accept
precisely 1 ≤ v ≤ 1000, 0 < v < 21/2 and 0 < v < 1000 respectively. -/
theorem numeric_bounds_inclusive_strict :
    passesBounds item_id_bounds ⟨1, 0⟩ = true
    ∧ passesBounds item_id_bounds ⟨1000, 0⟩ = true
    ∧ passesBounds size_bounds ⟨0, 0⟩ = false
    ∧ passesBounds size_bounds ⟨105, 1⟩ = false
    ∧ passesBounds importance_bounds ⟨0, 0⟩ = false
    ∧ passesBounds importance_bounds ⟨1000, 0⟩ = false
    ∧ (⟨105, 1⟩ : Dec).toRat = 21 / 2
    ∧ (∀ v : Dec, passesBounds item_id_bounds v
        = (decide ((1 : ℚ) ≤ v.toRat) && decide (v.toRat ≤ 1000)))
    ∧ (∀ v : Dec, passesBounds size_bounds v
        = (decide ((0 : ℚ) < v.toRat) && decide (v.toRat < 21 / 2)))
    ∧ (∀ v : Dec, passesBounds importance_bounds v
        = (decide ((0 : ℚ) < v.toRat) && decide (v.toRat < 1000))) := by
  refine ⟨by decide, by decide, by decide, by decide, by decide, by decide,
    by norm_num [Dec.toRat], ?_, ?_, ?_⟩ <;>
  · intro v
    simp only [passesBounds, item_id_bounds, size_bounds, importance_bounds,
      Dec.ble_eq, Dec.blt_eq, Bool.and_true, Bool.true_and]
    norm_num [Dec.toRat]

/-- C4: the required query parameter needy of
GET /users/{user_id}/items/{item_id} has no default. When it is absent the
binding is a validation failure carrying a required-error for needy and the
handler is never invoked; when it is present, its raw value appears unmodified
in any successful binding. -/
theorem required_query_needy (pb qs : List (String × String)) :
    (lookupRaw qs "needy" = none →
      isOkB (bindUserItems pb qs) = false
      ∧ (⟨["query", "needy"], Constraint.required, none⟩ : FieldError)
          ∈ errsOf (bindUserItems pb qs)
      ∧ runUserItems pb qs = Outcome.rejected (errsOf (bindUserItems pb qs)))
    ∧ (∀ v b, lookupRaw qs "needy" = some v → bindUserItems pb qs = Except.ok b →
        b.needy = v) := by
  constructor
  · intro hmiss
    have hn : checkNeedy qs
        = Except.error [⟨["query", "needy"], Constraint.required, none⟩] := by
      simp [checkNeedy, hmiss]
    cases h1 : checkUserId pb <;> cases h2 : checkItemIdStr pb <;>
      simp [bindUserItems, runUserItems, isOkB, errsOf, h1, h2, hn]
  · intro v b hv hb
    have hn : checkNeedy qs = Except.ok v := by simp [checkNeedy, hv]
    cases h1 : checkUserId pb <;> cases h2 : checkItemIdStr pb <;>
      simp [bindUserItems, h1, h2, hn] at hb
    rw [← hb]

/-- Witness for C4: with path bindings user_id="5", item_id="plumbus" and an
empty query string, binding fails with the required-error for needy recorded
and the request rejected; with needy="gimme" present, the bound needy field is
exactly "gimme". -/
theorem required_query_needy_witness :
    isOkB (bindUserItems [("user_id", "5"), ("item_id", "plumbus")] []) = false
    ∧ (⟨["query", "needy"], Constraint.required, none⟩ : FieldError)
        ∈ errsOf (bindUserItems [("user_id", "5"), ("item_id", "plumbus")] [])
    ∧ UserItemsBound.needy ⟨5, "plumbus", "gimme", none, false⟩ = "gimme" :=
  ⟨((required_query_needy [("user_id", "5"), ("item_id", "plumbus")] []).1 rfl).1,
   ((required_query_needy [("user_id", "5"), ("item_id", "plumbus")] []).1 rfl).2.1,
   (required_query_needy [("user_id", "5"), ("item_id", "plumbus")]
      [("needy", "gimme")]).2 "gimme" ⟨5, "plumbus", "gimme", none, false⟩ rfl rfl⟩

/-- C6: the enumerated path parameter model_name of GET /models/{model_name}
rejects every captured value outside the closed set {alexnet, resnet, lenet}
with a validation failure naming the allowed values, and binds every value
inside the set to the member whose underlying string is that value. -/
theorem enum_model_name_closed_set (s : String) :
    (s ∉ modelNameValues →
      parseModelName ["path", "model_name"] s
        = Except.error ⟨["path", "model_name"],
            Constraint.enumC ["alexnet", "resnet", "lenet"], some s⟩)
    ∧ (s ∈ modelNameValues →
      Except.map ModelName.value (parseModelName ["path", "model_name"] s)
        = Except.ok s) := by
  constructor
  · intro hs
    simp [modelNameValues] at hs
    simp [parseModelName, hs.1, hs.2.1, hs.2.2, modelNameValues]
  · intro hs
    simp [modelNameValues] at hs
    rcases hs with h | h | h <;> subst h <;> rfl

/-- Witness for C6: "vgg" is rejected with the error naming the allowed
values, and "resnet" binds to the member with value "resnet". -/
theorem enum_model_name_closed_set_witness :
    parseModelName ["path", "model_name"] "vgg"
      = Except.error ⟨["path", "model_name"],
          Constraint.enumC ["alexnet", "resnet", "lenet"], some "vgg"⟩
    ∧ Except.map ModelName.value (parseModelName ["path", "model_name"] "resnet")
      = Except.ok "resnet" :=
  ⟨(enum_model_name_closed_set "vgg").1 (by decide),
   (enum_model_name_closed_set "resnet").2 (by decide)⟩

/-- C7: boolean coercion of a query parameter such as short. The coerced
result is false exactly when the raw value is case-insensitively "false", "0"
or empty, true otherwise, and no raw value causes a validation failure. -/
theorem bool_coercion_total (s : String) (qs : List (String × String)) :
    (parseBool s = false ↔ (toLowerStr s = "false" ∨ s = "0" ∨ s = ""))
    ∧ (parseBool s = true ↔ ¬(toLowerStr s = "false" ∨ s = "0" ∨ s = ""))
    ∧ isOkB (checkShort qs) = true
    ∧ checkShort qs = Except.ok (shortVal qs) := by
  refine ⟨?_, ?_, rfl, rfl⟩ <;>
    by_cases h : toLowerStr s = "false" ∨ s = "0" ∨ s = "" <;> simp [parseBool, h]

/-- C8: validation of GET /numeric-items/{item_id} is aggregated, not
fail-fast. Every validation failure carries exactly the concatenation of the
errors of the three declared parameters — so when two or more parameters
violate their constraints every failing field is enumerated, each entry
carrying its field path, violated constraint and offending raw value — and
the request is rejected without invoking the handler; conversely every
individual parameter failure surfaces in the aggregated error list. -/
theorem aggregated_validation (rawItemId : String) (qs : List (String × String)) :
    (∀ es, bindNumericItems rawItemId qs = Except.error es →
      es = errsOf (checkNumericItemId rawItemId) ++ errsOf (checkNumericQ qs)
          ++ errsOf (checkNumericSize qs)
      ∧ runNumericItems rawItemId qs = Outcome.rejected es)
    ∧ (∀ e, (e ∈ errsOf (checkNumericItemId rawItemId)
          ∨ e ∈ errsOf (checkNumericQ qs) ∨ e ∈ errsOf (checkNumericSize qs)) →
        ∃ es, bindNumericItems rawItemId qs = Except.error es ∧ e ∈ es) := by
  have hrun : ∀ es, bindNumericItems rawItemId qs = Except.error es →
      runNumericItems rawItemId qs = Outcome.rejected es := by
    intro es hes
    simp [runNumericItems, hes]
  constructor
  · intro es hes
    refine ⟨?_, hrun es hes⟩
    cases h1 : checkNumericItemId rawItemId <;> cases h2 : checkNumericQ qs <;>
      cases h3 : checkNumericSize qs <;>
      simp [bindNumericItems, h1, h2, h3, errsOf] at hes ⊢ <;> simp [hes]
  · intro e he
    cases h1 : checkNumericItemId rawItemId <;> cases h2 : checkNumericQ qs <;>
      cases h3 : checkNumericSize qs <;>
      simp only [h1, h2, h3, errsOf, List.not_mem_nil, or_false, false_or] at he <;>
      exact ⟨errsOf (checkNumericItemId rawItemId) ++ errsOf (checkNumericQ qs)
          ++ errsOf (checkNumericSize qs),
        by simp [bindNumericItems, h1, h2, h3, errsOf],
        by simp [h1, h2, h3, errsOf]; tauto⟩

/-- Witness for C8: the request GET /numeric-items/2000?size=20 violates
item_id's le=1000 bound, omits the required q and violates size's lt=10.5
bound; the aggregated failure enumerates all three entries with their field
paths, constraints and raw values, and the request is rejected. -/
theorem aggregated_validation_witness :
    bindNumericItems "2000" [("size", "20")] = Except.error
      [⟨["path", "item_id"], Constraint.leC ⟨1000, 0⟩, some "2000"⟩,
       ⟨["query", "q"], Constraint.required, none⟩,
       ⟨["query", "size"], Constraint.ltC ⟨105, 1⟩, some "20"⟩]
    ∧ runNumericItems "2000" [("size", "20")] = Outcome.rejected
      [⟨["path", "item_id"], Constraint.leC ⟨1000, 0⟩, some "2000"⟩,
       ⟨["query", "q"], Constraint.required, none⟩,
       ⟨["query", "size"], Constraint.ltC ⟨105, 1⟩, some "20"⟩] :=
  ⟨rfl,
   ((aggregated_validation "2000" [("size", "20")]).1
      [⟨["path", "item_id"], Constraint.leC ⟨1000, 0⟩, some "2000"⟩,
       ⟨["query", "q"], Constraint.required, none⟩,
       ⟨["query", "size"], Constraint.ltC ⟨105, 1⟩, some "20"⟩] rfl).2⟩
